import Mathlib

/-!
# Verification of the weather-event API server (`src/server.js`)

Shallow embedding of the server's pure core and its stateful handlers.

* JS numbers are modelled as `Rat` (every value that occurs in the program —
  temperatures, wind speeds, scores, ids — is handled exactly by rationals).
* JSON values are modelled by the inductive `Json`; a JS object is an
  association list `Obj := List (String × Json)` (`Object.assign` and property
  writes are modelled key-by-key, first occurrence authoritative for reads).
* The external weather provider and the network are modelled as explicit
  parameters: each handler receives the outcome (`Option Raw`) that the
  provider call(s) it makes would produce; `none` is a failed call
  (non-success HTTP status, network error, or unparsable body).
* The on-disk store `db.json` is modelled as the list of event objects it
  holds; each handler maps the store it read to the store it writes (plus a
  flag telling whether `writeDB` was invoked at all).
-/

namespace WeatherServer

/-- JSON values (the fragment the server manipulates). -/
inductive Json where
  | null : Json
  | num : Rat → Json
  | str : String → Json
  | bool : Bool → Json
  | obj : List (String × Json) → Json
  deriving Repr

/-- A JS object: ordered association list of fields. Reads take the first
occurrence of a key. -/
abbrev Obj := List (String × Json)

/-- Substring test on character lists: `hasSubLM pat s` is true iff `pat`
occurs contiguously in `s` (the semantics of JS `String.prototype.includes`). -/
def hasSubLM (pat : List Char) : List Char → Bool
  | [] => pat.isEmpty
  | c :: rest => pat.isPrefixOf (c :: rest) || hasSubLM pat rest

/-- JS `s.includes(pat)`. -/
def strIncludes (s pat : String) : Bool := hasSubLM pat.toList s.toList

/-- JS `s.toLowerCase()`: per-character lowercasing (all descriptions and
patterns involved are ASCII, where JS and ASCII lowercasing agree). -/
def jsToLower (s : String) : String := String.mk (s.data.map Char.toLower)

/-- Normalized weather observation (output of `simplifyWeather`). -/
structure Obs where
  temp : Rat
  description : String
  wind : Rat
  clouds : Option Rat
  icon : String
  deriving Repr, DecidableEq

/-- Raw provider payload: the nested fields `simplifyWeather` reads, each
optional (`none` models a missing/absent nested field in the provider JSON). -/
structure Raw where
  mainTemp : Option Rat
  weatherDescription : Option String
  weatherIcon : Option String
  windSpeed : Option Rat
  cloudsAll : Option Rat
  deriving Repr, DecidableEq

/-- `simplifyWeather` (src/server.js:33-41): extract fields with JS `||` / `??`
defaults. (`x || d` yields `d` when `x` is absent or falsy — for strings the
falsy value is `""`, for numbers `0`, which coincides with the default.) -/
def simplifyWeather (raw : Raw) : Obs where
  temp := raw.mainTemp.getD 0
  description :=
    match raw.weatherDescription with
    | some d => if d = "" then "unknown" else d
    | none => "unknown"
  wind := raw.windSpeed.getD 0
  clouds := raw.cloudsAll
  icon := raw.weatherIcon.getD ""

/-- Result of the suitability scorer. -/
structure SuitResult where
  score : Int
  suitability : String
  deriving Repr, DecidableEq

/-- The label ternary chain (src/server.js:61):
`score > 80 ? "Great" : score > 60 ? "Good" : score > 40 ? "Okay" : "Poor"`. -/
def labelOf (score : Int) : String :=
  if score > 80 then "Great"
  else if score > 60 then "Good"
  else if score > 40 then "Okay"
  else "Poor"

/-- `getSuitability` (src/server.js:44-64), translated statement by statement:
sequential in-place adjustments of `score`, then clamp, then label. -/
def getSuitability (weather : Option Obs) (type' : String) : SuitResult :=
  match weather with
  | none => ⟨0, "Unknown"⟩
  | some w =>
    let desc := jsToLower w.description
    let s0 : Int := 50
    let s1 := if strIncludes desc "clear" then s0 + 30 else s0
    let s2 := if strIncludes desc "cloud" then s1 + 10 else s1
    let s3 := if strIncludes desc "rain" then s2 - 30 else s2
    let s4 := if w.wind > 10 then s3 - 10 else s3
    let s5 := if w.temp < 283 ∨ w.temp > 303 then s4 - 10 else s4
    let s6 :=
      if type' = "wedding" then s5 + 10
      else if type' = "sports" then s5 - 5 else s5
    let score := max 0 (min 100 s6)
    ⟨score, labelOf score⟩

/-- Reference scorer, written from the spec's words (§4.2): base 50 plus
independent additive adjustments computed from the original values, clamped
to [0, 100], label by exclusive lower-bound thresholds. -/
def getSuitabilitySpec (weather : Option Obs) (type' : String) : SuitResult :=
  match weather with
  | none => ⟨0, "Unknown"⟩
  | some w =>
    let desc := jsToLower w.description
    let raw : Int := 50
      + (if strIncludes desc "clear" then 30 else 0)
      + (if strIncludes desc "cloud" then 10 else 0)
      + (if strIncludes desc "rain" then -30 else 0)
      + (if w.wind > 10 then -10 else 0)
      + (if w.temp < 283 ∨ w.temp > 303 then -10 else 0)
      + (if type' = "wedding" then 10 else 0)
      + (if type' = "sports" then -5 else 0)
    let score := max 0 (min 100 raw)
    ⟨score, labelOf score⟩

/-! ## The event store and JS object operations -/

/-- JS property write `o[k] = v`: overwrite the (first, and in practice only)
occurrence of `k`, or append a new field. -/
def setKey : Obj → String → Json → Obj
  | [], k, v => [(k, v)]
  | (k', v') :: rest, k, v =>
    if k' = k then (k, v) :: rest else (k', v') :: setKey rest k v

/-- `Object.assign(e, body)` (src/server.js:138): write each field of `body`
onto `e`, in order. -/
def assign (e : Obj) (body : Obj) : Obj :=
  body.foldl (fun acc kv => setKey acc kv.1 kv.2) e

/-- Read a field expected to be a number; `none` when absent or non-numeric. -/
def numField (k : String) (e : Obj) : Option Rat :=
  match e.lookup k with
  | some (Json.num n) => some n
  | _ => none

/-- Read a field expected to be a string; `none` when absent or non-string. -/
def strFieldOpt (k : String) (e : Obj) : Option String :=
  match e.lookup k with
  | some (Json.str s) => some s
  | _ => none

/-- Read a string field with `""` for absent/non-string values. (Used where
the JS code consumes the field in a position whose behaviour on a non-string
coincides with that of a string it can never equal, e.g. `type === "wedding"`.) -/
def strField (k : String) (e : Obj) : String := (strFieldOpt k e).getD ""

/-- `db.events.find(e => e.id === id)`'s predicate: strict equality of the
stored `id` field against the parsed numeric id (false for non-numbers). -/
def eventHasId (e : Obj) (id : Rat) : Bool := numField "id" e == some id

/-- `db.events.find(e => e.id === id)`. -/
def findEvent (db : List Obj) (id : Rat) : Option Obj :=
  db.find? (fun e => eventHasId e id)

/-- The handlers mutate the found event in place inside `db.events`; on the
list model this replaces the first event whose `id` matches. -/
def replaceFirst : List Obj → Rat → Obj → List Obj
  | [], _, _ => []
  | e :: rest, id, e2 =>
    if eventHasId e id then e2 :: rest else e :: replaceFirst rest id e2

/-- The simplified observation as stored in the event's `weather` field. -/
def obsToJson (o : Obs) : Json :=
  Json.obj [("temp", Json.num o.temp),
            ("description", Json.str o.description),
            ("wind", Json.num o.wind),
            ("clouds", match o.clouds with | some c => Json.num c | none => Json.null),
            ("icon", Json.str o.icon)]

/-- The eight field names `formatEvent` destructures. -/
def eventKeys : List String :=
  ["id", "name", "city", "date", "type", "score", "suitability", "weather"]

/-- `formatEvent` (src/server.js:93-96): rebuild an object from exactly the
eight destructured fields. (A field absent from the record destructures to
`undefined`, which `JSON.stringify` then drops — modelled by skipping it.) -/
def formatEvent (e : Obj) : Obj :=
  eventKeys.filterMap (fun k => (e.lookup k).map (fun v => (k, v)))

/-! ## Weather fetching and the cache

`getWeather` (src/server.js:67-82) interacts with the network; its model takes
as an extra parameter the payload the upstream provider call would produce
(`none` = the call fails: non-ok status, network error, or unparsable body,
all of which `getWeather` turns into a thrown error) and returns, besides the
result, the updated cache and whether an upstream call was issued at all. -/

abbrev Cache := List (String × Raw)

/-- The composite cache key `` `${city}-${date}` ``. -/
def cacheKey (city date : String) : String := city ++ "-" ++ date

structure FetchOut where
  result : Option Raw
  cache : Cache
  upstreamCalled : Bool
  deriving Repr, DecidableEq

/-- `getWeather` (src/server.js:67-82): cache lookup first; on a hit return
the memoized raw payload without any network call; on a miss consult the
provider, memoize a successful payload, and propagate failure (the thrown
error is modelled as `result = none`). -/
def getWeather (cache : Cache) (city date : String) (provider : Option Raw) :
    FetchOut :=
  let key := cacheKey city date
  match cache.lookup key with
  | some cached => ⟨some cached, cache, false⟩
  | none =>
    match provider with
    | some data => ⟨some data, (key, data) :: cache, true⟩
    | none => ⟨none, cache, true⟩

/-- `safeGetWeather` (src/server.js:84-90): same as `getWeather` but the
thrown error is caught and returned as `null` — which the model of
`getWeather` already expresses by `result = none`. -/
def safeGetWeather (cache : Cache) (city date : String) (provider : Option Raw) :
    FetchOut :=
  getWeather cache city date provider

/-! ## Handlers -/

/-- Output of `POST /events` (src/server.js:101-123). -/
structure CreateOut where
  event : Obj
  db : List Obj
  deriving Repr

/-- `POST /events`: best-effort fetch (`provider = none` when
`safeGetWeather` returned `null`), score, build the event with
`id = db.events.length + 1`, push and persist, respond with the formatted
event. -/
def createEvent (db : List Obj) (name city date type' : String)
    (provider : Option Raw) : CreateOut :=
  let simplifiedWeather := provider.map simplifyWeather
  let r := getSuitability simplifiedWeather type'
  let newEvent : Obj :=
    [("id", Json.num ((db.length + 1 : Nat) : Rat)),
     ("name", Json.str name),
     ("city", Json.str city),
     ("date", Json.str date),
     ("type", Json.str type'),
     ("score", Json.num (r.score : Rat)),
     ("suitability", Json.str r.suitability),
     ("weather", match simplifiedWeather with
                 | some o => obsToJson o
                 | none => Json.null)]
  ⟨newEvent, db ++ [newEvent]⟩

inductive UpdateResp where
  | notFound : UpdateResp
  | ok : Obj → UpdateResp
  deriving Repr

structure UpdateOut where
  resp : UpdateResp
  db : List Obj
  wrote : Bool
  deriving Repr

/-- `PUT /events/:id` (src/server.js:132-141): find the event (404 when
absent, nothing written), `Object.assign` the request body onto it, persist,
respond with the formatted merged event. -/
def updateEvent (db : List Obj) (id : Rat) (body : Obj) : UpdateOut :=
  match findEvent db id with
  | none => ⟨.notFound, db, false⟩
  | some e =>
    let e2 := assign e body
    ⟨.ok (formatEvent e2), replaceFirst db id e2, true⟩

inductive CheckResp where
  | notFound : CheckResp
  | weatherFailed : CheckResp
  | ok : Obj → CheckResp
  deriving Repr

structure CheckOut where
  resp : CheckResp
  db : List Obj
  wrote : Bool
  deriving Repr

/-- `POST /events/:id/weather-check` (src/server.js:152-169): find the event
(404 when absent); fetch for its (city, date) — on failure respond 500
("Weather check failed") with nothing written; on success overwrite
`weather`, `score` and `suitability` from the fresh snapshot, persist,
respond with the formatted event. -/
def weatherCheck (db : List Obj) (id : Rat) (provider : Option Raw) : CheckOut :=
  match findEvent db id with
  | none => ⟨.notFound, db, false⟩
  | some e =>
    match provider with
    | none => ⟨.weatherFailed, db, false⟩
    | some rawWeather =>
      let simplified := simplifyWeather rawWeather
      let r := getSuitability (some simplified) (strField "type" e)
      let e2 := setKey (setKey (setKey e
                  "weather" (obsToJson simplified))
                  "score" (Json.num (r.score : Rat)))
                  "suitability" (Json.str r.suitability)
      ⟨.ok (formatEvent e2), replaceFirst db id e2, true⟩

/-! ## Dates

`GET /events/:id/alternatives` manipulates dates through JS `Date`:
`new Date(event.date)` parses an ISO `YYYY-MM-DD` string to UTC midnight,
`setDate(getDate() + offset)` shifts it by whole days, and
`toISOString().split("T")[0]` prints the shifted date. The net effect (for a
process running in UTC, and for valid ISO dates) is proleptic-Gregorian
day arithmetic, embedded here with the standard civil-calendar conversions. -/

/-- Days since 1970-01-01 of a civil date (proleptic Gregorian). -/
def daysFromCivil (y m d : Int) : Int :=
  let yy := if m ≤ 2 then y - 1 else y
  let era := Int.fdiv yy 400
  let yoe := yy - era * 400
  let mp := (m + 9) % 12
  let doy := Int.fdiv (153 * mp + 2) 5 + d - 1
  let doe := yoe * 365 + Int.fdiv yoe 4 - Int.fdiv yoe 100 + doy
  era * 146097 + doe - 719468

/-- Civil date (proleptic Gregorian) of a days-since-1970-01-01 count. -/
def civilFromDays (z0 : Int) : Int × Int × Int :=
  let z := z0 + 719468
  let era := Int.fdiv z 146097
  let doe := z - era * 146097
  let yoe := Int.fdiv (doe - Int.fdiv doe 1460 + Int.fdiv doe 36524 - Int.fdiv doe 146096) 365
  let y := yoe + era * 400
  let doy := doe - (365 * yoe + Int.fdiv yoe 4 - Int.fdiv yoe 100)
  let mp := Int.fdiv (5 * doy + 2) 153
  let d := doy - Int.fdiv (153 * mp + 2) 5 + 1
  let m := mp + (if mp < 10 then 3 else -9)
  (y + (if m ≤ 2 then 1 else 0), m, d)

/-- Split a character list at a separator character. -/
def splitOnChar (sep : Char) : List Char → List (List Char)
  | [] => [[]]
  | c :: rest =>
    let r := splitOnChar sep rest
    if c = sep then [] :: r
    else
      match r with
      | [] => [[c]]
      | g :: gs => (c :: g) :: gs

/-- Read a non-empty all-digit character list as a number. -/
def digitsToNat? (cs : List Char) : Option Nat :=
  if cs ≠ [] ∧ cs.all Char.isDigit then
    some (cs.foldl (fun acc c => acc * 10 + (c.toNat - 48)) 0)
  else none

/-- Parse `"YYYY-MM-DD"` (the format `new Date(...)` accepts for the stored
dates) into (year, month, day); `none` models an unparsable date. -/
def parseISO (s : String) : Option (Int × Int × Int) :=
  match splitOnChar (Char.ofNat 45) s.toList with
  | [ys, ms, ds] =>
    match digitsToNat? ys, digitsToNat? ms, digitsToNat? ds with
    | some y, some m, some d =>
      if 1 ≤ m ∧ m ≤ 12 ∧ 1 ≤ d ∧ d ≤ 31 then
        some ((y : Int), (m : Int), (d : Int))
      else none
    | _, _, _ => none
  | _ => none

/-- Decimal digits of a number, left-padded with zeros to a given width. -/
def padNat (width n : Nat) : String :=
  let s := Nat.repr n
  let pad := width - s.length
  String.mk (List.replicate pad (Char.ofNat 48)) ++ s

/-- Print a civil date the way `toISOString().split("T")[0]` does. -/
def formatISO (y m d : Int) : String :=
  padNat 4 y.toNat ++ "-" ++ padNat 2 m.toNat ++ "-" ++ padNat 2 d.toNat

/-- The date string the loop body queries for a given offset:
`new Date(base)` shifted by `offset` days and reprinted. (An unparsable
stored date would make `toISOString` throw in JS; modelled as `""`, a case no
claim exercises.) -/
def offsetDateStr (base : String) (offset : Int) : String :=
  match parseISO base with
  | some (y, m, d) =>
    match civilFromDays (daysFromCivil y m d + offset) with
    | (y2, m2, d2) => formatISO y2 m2 d2
  | none => ""

/-! ## Alternatives -/

/-- The offsets the loop `for (let offset = -3; offset <= 3; offset++)` with
`if (offset === 0) continue` actually processes. -/
def altOffsets : List Int := [-3, -2, -1, 1, 2, 3]

/-- One suggestion entry `{ date, score, suitability }`. -/
structure Alt where
  date : String
  score : Int
  suitability : String
  deriving Repr, DecidableEq

/-- The suggestion list built by the loop (src/server.js:191-203), before
sorting: one entry per offset whose best-effort fetch succeeded, failed
offsets skipped. `fetch city dateStr` is the payload `safeGetWeather(city,
dateStr)` would produce (`none` = failure). -/
def altEntries (city base type' : String) (fetch : String → String → Option Raw) :
    List Alt :=
  altOffsets.filterMap (fun offset =>
    let dateStr := offsetDateStr base offset
    (fetch city dateStr).map (fun weatherRaw =>
      let simplified := simplifyWeather weatherRaw
      let r := getSuitability (some simplified) type'
      ⟨dateStr, r.score, r.suitability⟩))

inductive AltResp where
  | notFound : AltResp
  | noAlternatives : AltResp
  | ok : List Alt → AltResp
  deriving Repr, DecidableEq

/-- Descending-score order: the JS comparator `(a, b) => b.score - a.score`
puts `a` before `b` exactly when `b.score ≤ a.score`; V8's stable sort is
modelled by the stable `mergeSort`. -/
def altLe (a b : Alt) : Bool := b.score ≤ a.score

/-- `GET /events/:id/alternatives` (src/server.js:182-210): 404 when the id
is absent; otherwise try the six offsets, 404 "no suitable alternatives"
when every fetch failed, else respond with the entries sorted by descending
score. -/
def alternatives (db : List Obj) (id : Rat)
    (fetch : String → String → Option Raw) : AltResp :=
  match findEvent db id with
  | none => .notFound
  | some e =>
    let suggestions :=
      altEntries (strField "city" e) (strField "date" e) (strField "type" e) fetch
    if suggestions.isEmpty then .noAlternatives
    else .ok (suggestions.mergeSort altLe)

/-! ## Helper lemmas -/

theorem lookup_setKey_self (e : Obj) (k : String) (v : Json) :
    (setKey e k v).lookup k = some v := by
  induction e with
  | nil => simp [setKey]
  | cons kv rest ih =>
    obtain ⟨k', v'⟩ := kv
    by_cases h : k' = k
    · subst h; simp [setKey]
    · simp [setKey, h, List.lookup_cons, beq_false_of_ne (Ne.symm h), ih]

theorem lookup_setKey_ne (e : Obj) (k k2 : String) (v : Json) (h : k2 ≠ k) :
    (setKey e k v).lookup k2 = e.lookup k2 := by
  induction e with
  | nil => simp [setKey, List.lookup_cons, beq_false_of_ne h]
  | cons kv rest ih =>
    obtain ⟨k', v'⟩ := kv
    by_cases h' : k' = k
    · subst h'; simp [setKey, List.lookup_cons, beq_false_of_ne h]
    · simp [setKey, h', List.lookup_cons, ih]

theorem lookup_assign_of_not_mem (body : Obj) :
    ∀ (e : Obj) (k : String), k ∉ body.map Prod.fst →
      (assign e body).lookup k = e.lookup k := by
  induction body with
  | nil => intro e k _; rfl
  | cons kv rest ih =>
    intro e k hk
    obtain ⟨k0, v0⟩ := kv
    simp only [List.map_cons, List.mem_cons, not_or] at hk
    show (assign (setKey e k0 v0) rest).lookup k = _
    rw [ih _ _ hk.2, lookup_setKey_ne _ _ _ _ hk.1]

theorem lookup_assign_of_mem (body : Obj) :
    ∀ (e : Obj) (k : String), (body.map Prod.fst).Nodup →
      k ∈ body.map Prod.fst →
      (assign e body).lookup k = body.lookup k := by
  induction body with
  | nil => intro e k _ hk; cases hk
  | cons kv rest ih =>
    intro e k hnd hk
    obtain ⟨k0, v0⟩ := kv
    simp only [List.map_cons, List.nodup_cons] at hnd
    by_cases h : k = k0
    · subst h
      show (assign (setKey e k v0) rest).lookup k = _
      rw [lookup_assign_of_not_mem _ _ _ hnd.1, lookup_setKey_self]
      simp
    · simp only [List.map_cons, List.mem_cons] at hk
      rcases hk with hk | hk
      · exact absurd hk h
      · show (assign (setKey e k0 v0) rest).lookup k = _
        rw [ih _ _ hnd.2 hk]
        simp [List.lookup_cons, beq_false_of_ne h]

theorem map_replaceFirst {γ : Type} (f : Obj → γ) (id : Rat) (e2 : Obj) :
    ∀ (db : List Obj) (e : Obj), findEvent db id = some e → f e2 = f e →
      (replaceFirst db id e2).map f = db.map f := by
  intro db
  induction db with
  | nil => intro e h; simp [findEvent] at h
  | cons a rest ih =>
    intro e h hf
    by_cases ha : eventHasId a id
    · simp only [findEvent, List.find?, ha, Option.some.injEq] at h
      subst h
      simp [replaceFirst, ha, hf]
    · simp only [findEvent, List.find?, Bool.eq_false_iff.mpr ha] at h
      simp [replaceFirst, ha, ih e h hf]

theorem lookup_fmRebuild_of_not_mem (e : Obj) :
    ∀ (ks : List String) (k : String), k ∉ ks →
      (ks.filterMap (fun k' => (e.lookup k').map (fun v => (k', v)))).lookup k = none := by
  intro ks
  induction ks with
  | nil => intro k _; rfl
  | cons k0 rest ih =>
    intro k hk
    simp only [List.mem_cons, not_or] at hk
    cases h0 : e.lookup k0 with
    | none => simpa [List.filterMap_cons, h0] using ih k hk.2
    | some v => simp [List.filterMap_cons, h0, List.lookup_cons, beq_false_of_ne hk.1, ih k hk.2]

theorem lookup_fmRebuild_of_mem (e : Obj) :
    ∀ (ks : List String) (k : String), ks.Nodup → k ∈ ks →
      (ks.filterMap (fun k' => (e.lookup k').map (fun v => (k', v)))).lookup k = e.lookup k := by
  intro ks
  induction ks with
  | nil => intro k _ hk; cases hk
  | cons k0 rest ih =>
    intro k hnd hk
    simp only [List.nodup_cons] at hnd
    by_cases h : k = k0
    · subst h
      cases h0 : e.lookup k with
      | none => simpa [List.filterMap_cons, h0] using lookup_fmRebuild_of_not_mem e rest k hnd.1
      | some v => simp [List.filterMap_cons, h0]
    · rcases List.mem_cons.mp hk with hk0 | hk'
      · exact absurd hk0 h
      · cases h0 : e.lookup k0 with
        | none => simpa [List.filterMap_cons, h0] using ih k hnd.2 hk'
        | some v => simp [List.filterMap_cons, h0, List.lookup_cons, beq_false_of_ne h, ih k hnd.2 hk']

theorem mapFst_fmRebuild (e : Obj) :
    ∀ (ks : List String),
      (ks.filterMap (fun k' => (e.lookup k').map (fun v => (k', v)))).map Prod.fst
        = ks.filter (fun k' => (e.lookup k').isSome) := by
  intro ks
  induction ks with
  | nil => rfl
  | cons k0 rest ih =>
    cases h0 : e.lookup k0 with
    | none => simp [List.filterMap_cons, h0, List.filter_cons, ih]
    | some v => simp [List.filterMap_cons, h0, List.filter_cons, ih]

theorem length_filterMap_eq_countP {α β : Type} (f : α → Option β) :
    ∀ l : List α, (l.filterMap f).length = l.countP (fun a => (f a).isSome) := by
  intro l
  induction l with
  | nil => rfl
  | cons a rest ih =>
    cases h : f a with
    | none => simp [List.filterMap_cons, h, List.countP_cons, ih]
    | some b => simp [List.filterMap_cons, h, List.countP_cons, ih]

/-! ## Claims -/

theorem labelOf_ne_unknown (s : Int) : labelOf s ≠ "Unknown" := by
  unfold labelOf
  split
  · decide
  · split
    · decide
    · split <;> decide

/-- **C1**: the suitability scorer agrees pointwise with the spec's reference
definition (base 50 plus independent, non-cascading additive adjustments,
clamped to [0,100], label by exclusive lower bounds, null observation →
score 0 and "Unknown"); description "clear and windy", temp 290, wind 15,
type "sports" yields 65 and "Good"; the score always lies in [0,100]; and
the label is "Unknown" iff the observation is null. -/
theorem claim_C1_scorer_matches_spec :
    (∀ (w : Option Obs) (t : String), getSuitability w t = getSuitabilitySpec w t)
    ∧ getSuitability (some ⟨290, "clear and windy", 15, none, ""⟩) "sports" = ⟨65, "Good"⟩
    ∧ (∀ (w : Option Obs) (t : String),
        0 ≤ (getSuitability w t).score ∧ (getSuitability w t).score ≤ 100)
    ∧ (∀ (w : Option Obs) (t : String),
        ((getSuitability w t).suitability = "Unknown" ↔ w = none)) := by
  refine ⟨?_, by decide, ?_, ?_⟩
  · intro w t
    cases w with
    | none => rfl
    | some o =>
      simp only [getSuitability, getSuitabilitySpec]
      generalize (strIncludes (jsToLower o.description) "clear") = b1
      generalize (strIncludes (jsToLower o.description) "cloud") = b2
      generalize (strIncludes (jsToLower o.description) "rain") = b3
      by_cases h4 : o.wind > 10 <;>
      by_cases h5 : (o.temp < 283 ∨ o.temp > 303) <;>
      by_cases h6 : t = "wedding" <;>
      by_cases h7 : t = "sports" <;>
      first
        | (subst h6; exact absurd h7 (by decide))
        | (simp only [h4, h5, h6, h7, if_true, if_false, ite_true, ite_false, if_pos, if_neg,
            not_false_iff, eq_self_iff_true];
           revert b1 b2 b3; decide)
  · intro w t
    cases w with
    | none => exact ⟨le_refl 0, show (0:Int) ≤ 100 by norm_num⟩
    | some o =>
      constructor
      · exact le_max_left 0 _
      · exact max_le (by norm_num) (min_le_left _ _)
  · intro w t
    cases w with
    | none => simp [getSuitability]
    | some o => simp [getSuitability, labelOf_ne_unknown]

/-- **C2**: when the provider fetch for a stored event's (city, date) fails,
`POST /events/:id/weather-check` reports the error to the caller and leaves
the store untouched: the response is the 500 error, the store written back
is the store that was read (so the event's prior weather, score and
suitability persist), and `writeDB` is never invoked. -/
theorem claim_C2_weather_check_atomic_on_failure
    (db : List Obj) (id : Rat) (e : Obj) (h : findEvent db id = some e) :
    weatherCheck db id none = ⟨.weatherFailed, db, false⟩ := by
  unfold weatherCheck
  rw [h]

/-- A concrete event store with one event (id 1), as created by
`POST /events` while the provider was unreachable. -/
def demoEvt : Obj := (createEvent [] "picnic" "Pune" "2024-06-01" "party" none).event

def demoDb : List Obj := [demoEvt]

theorem claim_C2_witness :
    findEvent demoDb 1 = some demoEvt ∧
    weatherCheck demoDb 1 none = ⟨.weatherFailed, demoDb, false⟩ :=
  ⟨by rfl, claim_C2_weather_check_atomic_on_failure demoDb 1 demoEvt (by rfl)⟩

/-- **C4**: `POST /events` with a failing provider fetch still succeeds:
it builds the event with weather `null`, score 0 and suitability "Unknown",
appends it to the store, and responds with that event (the formatted
response is the event itself) instead of propagating the provider error. -/
theorem claim_C4_create_succeeds_on_provider_failure
    (db : List Obj) (name city date type' : String) :
    numField "score" (createEvent db name city date type' none).event = some 0
    ∧ strFieldOpt "suitability" (createEvent db name city date type' none).event
        = some "Unknown"
    ∧ ((createEvent db name city date type' none).event).lookup "weather"
        = some Json.null
    ∧ (createEvent db name city date type' none).db
        = db ++ [(createEvent db name city date type' none).event]
    ∧ formatEvent ((createEvent db name city date type' none).event)
        = (createEvent db name city date type' none).event :=
  ⟨rfl, rfl, rfl, rfl, rfl⟩

/-- **C8**: `PUT /events/:id` shallow-merges exactly the provided fields into
the found record: the response is the formatted merge, the store replaces
just that record, fields not named in the body keep their previous values
(in particular `weather`, `score` and `suitability` are not recomputed when
`city`, `date` or `type` change), fields named in the body take the body's
values; when the id is absent the handler answers 404 and writes nothing. -/
theorem claim_C8_update_shallow_merge (db : List Obj) (id : Rat) (body : Obj) (e : Obj)
    (h : findEvent db id = some e) (hnd : (body.map Prod.fst).Nodup) :
    updateEvent db id body
      = ⟨.ok (formatEvent (assign e body)), replaceFirst db id (assign e body), true⟩
    ∧ (∀ k, k ∉ body.map Prod.fst → (assign e body).lookup k = e.lookup k)
    ∧ (∀ k, k ∈ body.map Prod.fst → (assign e body).lookup k = body.lookup k)
    ∧ (∀ (db2 : List Obj) (id2 : Rat) (body2 : Obj),
        findEvent db2 id2 = none → updateEvent db2 id2 body2 = ⟨.notFound, db2, false⟩) := by
  refine ⟨?_, ?_, ?_, ?_⟩
  · unfold updateEvent; rw [h]
  · intro k hk; exact lookup_assign_of_not_mem body e k hk
  · intro k hk; exact lookup_assign_of_mem body e k hnd hk
  · intro db2 id2 body2 h2; unfold updateEvent; rw [h2]

theorem claim_C8_witness :
    (assign demoEvt [("city", Json.str "Mumbai")]).lookup "score" = demoEvt.lookup "score"
    ∧ (assign demoEvt [("city", Json.str "Mumbai")]).lookup "city"
        = ([("city", Json.str "Mumbai")] : Obj).lookup "city" :=
  ⟨(claim_C8_update_shallow_merge demoDb 1 [("city", Json.str "Mumbai")] demoEvt
      (by rfl) (by decide)).2.1 "score" (by decide),
   (claim_C8_update_shallow_merge demoDb 1 [("city", Json.str "Mumbai")] demoEvt
      (by rfl) (by decide)).2.2.1 "city" (by decide)⟩

/-- **C9**: the Event JSON any event-returning endpoint builds via
`formatEvent` carries exactly the eight documented fields: any key outside
the eight is absent from the response, the eight present keys are passed
through unchanged from the record, and when the record has all eight (as
every record created by the service does) the response's key list is exactly
the eight, so injected extra fields are omitted. -/
theorem claim_C9_response_has_exactly_eight_fields (e : Obj) :
    (∀ k, k ∉ eventKeys → (formatEvent e).lookup k = none)
    ∧ (∀ k, k ∈ eventKeys → (formatEvent e).lookup k = e.lookup k)
    ∧ ((∀ k, k ∈ eventKeys → (e.lookup k).isSome) →
        (formatEvent e).map Prod.fst = eventKeys) := by
  refine ⟨?_, ?_, ?_⟩
  · intro k hk; exact lookup_fmRebuild_of_not_mem e eventKeys k hk
  · intro k hk; exact lookup_fmRebuild_of_mem e eventKeys k (by decide) hk
  · intro hall
    show (eventKeys.filterMap fun k => (e.lookup k).map (fun v => (k, v))).map Prod.fst = eventKeys
    rw [mapFst_fmRebuild]
    exact List.filter_eq_self.mpr (fun k hk => hall k hk)

/-- An event record carrying a field injected through an update request. -/
def demoEvtExtra : Obj := assign demoEvt [("hacked", Json.str "x")]

theorem claim_C9_witness :
    (formatEvent demoEvtExtra).lookup "hacked" = none
    ∧ (formatEvent demoEvtExtra).map Prod.fst = eventKeys :=
  ⟨(claim_C9_response_has_exactly_eight_fields demoEvtExtra).1 "hacked" (by decide),
   (claim_C9_response_has_exactly_eight_fields demoEvtExtra).2.2 (by decide)⟩

/-- The per-event `score` fields of a store. -/
def dbScores (db : List Obj) : List (Option Rat) := db.map (numField "score")

/-- The per-event `suitability` fields of a store. -/
def dbSuits (db : List Obj) : List (Option String) := db.map (strFieldOpt "suitability")

/-- The per-event `id` fields of a store. -/
def dbIds (db : List Obj) : List (Option Rat) := db.map (numField "id")

/-- **C6** (counterexample): `PUT /events/1` with body `{"score": 99}` on a
one-event store changes the stored score from 0 to 99 while leaving the
suitability label at "Unknown" — an operation of the service mutates `score`
independently of `suitability`, so the claimed invariant fails as stated. -/
theorem claim_C6_counterexample :
    dbScores (updateEvent demoDb 1 [("score", Json.num 99)]).db = [some 99]
    ∧ dbSuits (updateEvent demoDb 1 [("score", Json.num 99)]).db = [some "Unknown"]
    ∧ dbScores demoDb = [some 0]
    ∧ dbSuits demoDb = [some "Unknown"]
    ∧ (99 : Rat) ≠ 0 :=
  ⟨by rfl, by rfl, by rfl, by rfl, by norm_num⟩

/-- **C6** (amended): the weather-deriving operations keep `score` and
`suitability` in lock-step — creation sets both from one `getSuitability`
call on the fetched snapshot, and a successful weather-check overwrites both
from one `getSuitability` call on the fresh snapshot — and an update whose
body names neither field leaves both unchanged on every stored event; but an
update body may overwrite `score` or `suitability` individually. -/
theorem claim_C6_amended_derived_together :
    (∀ (db : List Obj) (n c d t : String) (p : Option Raw),
      numField "score" (createEvent db n c d t p).event
          = some ((getSuitability (p.map simplifyWeather) t).score : Rat)
      ∧ strFieldOpt "suitability" (createEvent db n c d t p).event
          = some (getSuitability (p.map simplifyWeather) t).suitability)
    ∧ (∀ (db : List Obj) (id : Rat) (e : Obj) (raw : Raw),
        findEvent db id = some e →
        ∃ e2, weatherCheck db id (some raw) = ⟨.ok (formatEvent e2), replaceFirst db id e2, true⟩
          ∧ numField "score" e2
              = some ((getSuitability (some (simplifyWeather raw)) (strField "type" e)).score : Rat)
          ∧ strFieldOpt "suitability" e2
              = some (getSuitability (some (simplifyWeather raw)) (strField "type" e)).suitability)
    ∧ (∀ (db : List Obj) (id : Rat) (body : Obj),
        "score" ∉ body.map Prod.fst → "suitability" ∉ body.map Prod.fst →
        dbScores (updateEvent db id body).db = dbScores db
        ∧ dbSuits (updateEvent db id body).db = dbSuits db) := by
  refine ⟨fun db n c d t p => ⟨rfl, rfl⟩, ?_, ?_⟩
  · intro db id e raw h
    refine ⟨setKey (setKey (setKey e
        "weather" (obsToJson (simplifyWeather raw)))
        "score" (Json.num ((getSuitability (some (simplifyWeather raw)) (strField "type" e)).score : Rat)))
        "suitability" (Json.str (getSuitability (some (simplifyWeather raw)) (strField "type" e)).suitability),
      ?_, ?_, ?_⟩
    · unfold weatherCheck; rw [h]
    · unfold numField
      rw [lookup_setKey_ne _ _ _ _ (by decide), lookup_setKey_self]
    · unfold strFieldOpt
      rw [lookup_setKey_self]
  · intro db id body hs hsu
    cases hfe : findEvent db id with
    | none =>
      unfold updateEvent; rw [hfe]
      exact ⟨rfl, rfl⟩
    | some e =>
      unfold updateEvent; rw [hfe]
      constructor
      · exact map_replaceFirst _ id _ db e hfe
          (by unfold numField; rw [lookup_assign_of_not_mem _ _ _ hs])
      · exact map_replaceFirst _ id _ db e hfe
          (by unfold strFieldOpt; rw [lookup_assign_of_not_mem _ _ _ hsu])

theorem claim_C6_witness :
    dbScores (updateEvent demoDb 1 [("name", Json.str "renamed")]).db = dbScores demoDb
    ∧ dbSuits (updateEvent demoDb 1 [("name", Json.str "renamed")]).db = dbSuits demoDb :=
  claim_C6_amended_derived_together.2.2 demoDb 1 [("name", Json.str "renamed")]
    (by decide) (by decide)

/-- **C7** (counterexample): `PUT /events/1` with body `{"id": 42}` rewrites
the stored event's id from 1 to 42 — an update request can change an existing
event's id, so "no operation, including update, changes it" fails as stated. -/
theorem claim_C7_counterexample :
    dbIds (updateEvent demoDb 1 [("id", Json.num 42)]).db = [some 42]
    ∧ dbIds demoDb = [some 1]
    ∧ (42 : Rat) ≠ 1 :=
  ⟨by rfl, by rfl, by norm_num⟩

/-- The id column of a store whose events were created sequentially: ids
`1, 2, …, n`. -/
def seqIds (n : Nat) : List (Option Rat) := (List.range n).map (fun k => some ((k + 1 : Nat) : Rat))

/-- **C7** (amended): creation assigns the new event the id
`store count + 1` and keeps every existing id, so a store with sequential
ids `1..n` stays sequential (hence ids unique, `seqIds` having no
duplicates); weather-check never changes any id; and an update whose body
does not name `id` changes no id — but an update body naming `id`
overwrites it (see the counterexample). -/
theorem claim_C7_amended_sequential_ids :
    (∀ (db : List Obj) (n c d t : String) (p : Option Raw),
      numField "id" (createEvent db n c d t p).event = some ((db.length + 1 : Nat) : Rat))
    ∧ (∀ (db : List Obj) (n c d t : String) (p : Option Raw),
      dbIds (createEvent db n c d t p).db = dbIds db ++ [some ((db.length + 1 : Nat) : Rat)])
    ∧ (∀ (db : List Obj) (n c d t : String) (p : Option Raw),
        dbIds db = seqIds db.length →
        dbIds (createEvent db n c d t p).db = seqIds (db.length + 1))
    ∧ (∀ n, (seqIds n).Nodup)
    ∧ (∀ (db : List Obj) (id : Rat) (p : Option Raw),
        dbIds (weatherCheck db id p).db = dbIds db)
    ∧ (∀ (db : List Obj) (id : Rat) (body : Obj),
        "id" ∉ body.map Prod.fst →
        dbIds (updateEvent db id body).db = dbIds db) := by
  have hb : ∀ (db : List Obj) (n c d t : String) (p : Option Raw),
      dbIds (createEvent db n c d t p).db = dbIds db ++ [some ((db.length + 1 : Nat) : Rat)] := by
    intro db n c d t p
    show dbIds (db ++ [(createEvent db n c d t p).event]) = _
    unfold dbIds
    rw [List.map_append]
    rfl
  refine ⟨fun db n c d t p => rfl, hb, ?_, ?_, ?_, ?_⟩
  · intro db n c d t p h
    rw [hb, h]
    unfold seqIds
    rw [List.range_succ, List.map_append]
    rfl
  · intro n
    unfold seqIds
    refine (List.nodup_range n).map ?_
    intro a b hab
    simp only [Option.some.injEq, Nat.cast_inj] at hab
    omega
  · intro db id p
    cases hfe : findEvent db id with
    | none => unfold weatherCheck; rw [hfe]
    | some e =>
      cases p with
      | none => unfold weatherCheck; rw [hfe]
      | some raw =>
        unfold weatherCheck; rw [hfe]
        show dbIds (replaceFirst db id _) = dbIds db
        exact map_replaceFirst _ id _ db e hfe
          (by unfold numField
              rw [lookup_setKey_ne _ _ _ _ (by decide), lookup_setKey_ne _ _ _ _ (by decide),
                lookup_setKey_ne _ _ _ _ (by decide)])
  · intro db id body hid
    cases hfe : findEvent db id with
    | none => unfold updateEvent; rw [hfe]
    | some e =>
      unfold updateEvent; rw [hfe]
      exact map_replaceFirst _ id _ db e hfe
        (by unfold numField; rw [lookup_assign_of_not_mem _ _ _ hid])

theorem claim_C7_witness :
    numField "id" (createEvent demoDb "m" "Delhi" "2024-07-01" "sports" none).event = some 2
    ∧ dbIds (createEvent demoDb "m" "Delhi" "2024-07-01" "sports" none).db = seqIds 2 :=
  ⟨claim_C7_amended_sequential_ids.1 demoDb "m" "Delhi" "2024-07-01" "sports" none,
   claim_C7_amended_sequential_ids.2.2.1 demoDb "m" "Delhi" "2024-07-01" "sports" none (by rfl)⟩

/-- A concrete successful provider payload. -/
def demoRaw : Raw := ⟨some 290, some "clear sky", some "01d", some 3, some 0⟩

/-- **C5**: per (city, date) pair the cache memoizes the first successful raw
payload: a cached pair is answered from the cache with no upstream call and
no cache change; a successful fetch leaves its payload under the pair's key;
after a success, every subsequent fetch for the same pair returns that same
memoized payload with no upstream call — and normalizing it yields the same
observation each time; fetches for other keys never disturb the entry. -/
theorem claim_C5_cache_memoizes_success (cache : Cache) (city date : String) :
    (∀ (p : Option Raw) (r : Raw), cache.lookup (cacheKey city date) = some r →
        getWeather cache city date p = ⟨some r, cache, false⟩)
    ∧ (∀ (p : Option Raw) (r : Raw), (getWeather cache city date p).result = some r →
        ((getWeather cache city date p).cache).lookup (cacheKey city date) = some r)
    ∧ (∀ (p p' : Option Raw) (r : Raw), (getWeather cache city date p).result = some r →
        getWeather (getWeather cache city date p).cache city date p'
          = ⟨some r, (getWeather cache city date p).cache, false⟩
        ∧ (getWeather (getWeather cache city date p).cache city date p').result.map simplifyWeather
          = some (simplifyWeather r))
    ∧ (∀ (city' date' : String) (p' : Option Raw), cacheKey city' date' ≠ cacheKey city date →
        ((getWeather cache city' date' p').cache).lookup (cacheKey city date)
          = cache.lookup (cacheKey city date)) := by
  have mem : ∀ (p : Option Raw) (r : Raw), (getWeather cache city date p).result = some r →
      ((getWeather cache city date p).cache).lookup (cacheKey city date) = some r := by
    intro p r h
    cases hl : cache.lookup (cacheKey city date) with
    | some c =>
      simp only [getWeather, hl] at h ⊢
      exact h
    | none =>
      cases p with
      | none =>
        simp only [getWeather, hl] at h
        exact Option.noConfusion h
      | some data =>
        simp only [getWeather, hl] at h ⊢
        simp only [Option.some.injEq] at h
        subst h
        simp [List.lookup_cons]
  have hit : ∀ (c : Cache) (p : Option Raw) (r : Raw), c.lookup (cacheKey city date) = some r →
      getWeather c city date p = ⟨some r, c, false⟩ := by
    intro c p r h
    simp only [getWeather, h]
  refine ⟨hit cache, mem, ?_, ?_⟩
  · intro p p' r h
    have h2 := hit (getWeather cache city date p).cache p' r (mem p r h)
    refine ⟨h2, ?_⟩
    rw [h2]
    rfl
  · intro city' date' p' hne
    cases hl : cache.lookup (cacheKey city' date') with
    | some c => simp only [getWeather, hl]
    | none =>
      cases p' with
      | none => simp only [getWeather, hl]
      | some data =>
        simp only [getWeather, hl]
        simp [List.lookup_cons, beq_false_of_ne hne.symm]

theorem claim_C5_witness :
    getWeather (getWeather [] "Pune" "2024-06-01" (some demoRaw)).cache
        "Pune" "2024-06-01" none
      = ⟨some demoRaw, (getWeather [] "Pune" "2024-06-01" (some demoRaw)).cache, false⟩ :=
  ((claim_C5_cache_memoizes_success [] "Pune" "2024-06-01").2.2.1
    (some demoRaw) none demoRaw (by rfl)).1

/-- **C10**: a failed provider fetch is never memoized: on a cache miss with
a failing provider, `getWeather` returns the failure with the cache exactly
as it was, so any later fetch for the same (city, date) key still misses the
cache, issues the upstream call again, and returns whatever that fresh call
produces (rather than a cached failure or null). -/
theorem claim_C10_failure_not_cached (cache : Cache) (city date : String)
    (h : cache.lookup (cacheKey city date) = none) :
    getWeather cache city date none = ⟨none, cache, true⟩
    ∧ (∀ p' : Option Raw, (getWeather cache city date p').upstreamCalled = true
        ∧ (getWeather cache city date p').result = p') := by
  constructor
  · simp only [getWeather, h]
  · intro p'
    cases p' with
    | none => simp [getWeather, h]
    | some data => simp [getWeather, h]

theorem claim_C10_witness :
    getWeather [] "Pune" "2024-06-01" none = ⟨none, [], true⟩
    ∧ (getWeather [] "Pune" "2024-06-01" (some demoRaw)).result = some demoRaw :=
  ⟨(claim_C10_failure_not_cached [] "Pune" "2024-06-01" rfl).1,
   ((claim_C10_failure_not_cached [] "Pune" "2024-06-01" rfl).2 (some demoRaw)).2⟩

theorem altLe_trans (a b c : Alt) : altLe a b → altLe b c → altLe a c := by
  simp only [altLe, decide_eq_true_eq]
  omega

theorem altLe_total (a b : Alt) : altLe a b || altLe b a := by
  simp only [altLe, Bool.or_eq_true, decide_eq_true_eq]
  omega

/-- **C3**: for a stored event, the alternatives handler considers exactly
the six day offsets {-3,-2,-1,+1,+2,+3} (never 0, the event's own date);
it answers the distinct no-alternatives error exactly when every offset's
best-effort fetch failed; a successful answer is a permutation of the
per-offset entries (failed offsets silently omitted, successes scored with
the event's type), sorted in descending score order, with one entry per
successful offset; in particular, when exactly n > 0 offsets succeed the
answer has exactly n entries. -/
theorem claim_C3_alternatives_six_offsets (db : List Obj) (id : Rat) (e : Obj)
    (fetch : String → String → Option Raw)
    (h : findEvent db id = some e) :
    altOffsets = [-3, -2, -1, 1, 2, 3] ∧ (0 : Int) ∉ altOffsets
    ∧ (alternatives db id fetch = .noAlternatives ↔
        ∀ o ∈ altOffsets,
          fetch (strField "city" e) (offsetDateStr (strField "date" e) o) = none)
    ∧ (∀ l, alternatives db id fetch = .ok l →
        l.Perm (altEntries (strField "city" e) (strField "date" e) (strField "type" e) fetch)
        ∧ l.Pairwise (fun a b => b.score ≤ a.score)
        ∧ l.length = altOffsets.countP
            (fun o => (fetch (strField "city" e) (offsetDateStr (strField "date" e) o)).isSome))
    ∧ (∀ n, altOffsets.countP
          (fun o => (fetch (strField "city" e) (offsetDateStr (strField "date" e) o)).isSome) = n →
        0 < n → ∃ l, alternatives db id fetch = .ok l ∧ l.length = n) := by
  have hlen : (altEntries (strField "city" e) (strField "date" e) (strField "type" e) fetch).length
      = altOffsets.countP
          (fun o => (fetch (strField "city" e) (offsetDateStr (strField "date" e) o)).isSome) := by
    rw [altEntries, length_filterMap_eq_countP]
    simp only [Option.isSome_map']
  have halt : alternatives db id fetch
      = if (altEntries (strField "city" e) (strField "date" e) (strField "type" e) fetch).isEmpty
        then .noAlternatives
        else .ok ((altEntries (strField "city" e) (strField "date" e) (strField "type" e) fetch).mergeSort altLe) := by
    unfold alternatives
    rw [h]
  refine ⟨rfl, by decide, ?_, ?_, ?_⟩
  · rw [halt]
    by_cases he : (altEntries (strField "city" e) (strField "date" e) (strField "type" e) fetch).isEmpty
    · simp only [he, if_true, true_iff]
      rw [List.isEmpty_iff, altEntries, List.filterMap_eq_nil_iff] at he
      intro o ho
      exact Option.map_eq_none'.mp (he o ho)
    · simp only [he, if_false]
      constructor
      · intro hcon; exact absurd hcon (by simp)
      · intro hall
        exfalso
        refine he ?_
        rw [List.isEmpty_iff, altEntries, List.filterMap_eq_nil_iff]
        intro o ho
        rw [Option.map_eq_none']
        exact hall o ho
  · intro l hl
    rw [halt] at hl
    by_cases he : (altEntries (strField "city" e) (strField "date" e) (strField "type" e) fetch).isEmpty
    · rw [if_pos he] at hl; exact absurd hl (by simp)
    · rw [if_neg he] at hl
      have hl2 : l = (altEntries (strField "city" e) (strField "date" e) (strField "type" e) fetch).mergeSort altLe := by
        cases hl; rfl
      subst hl2
      refine ⟨List.mergeSort_perm _ _, ?_, ?_⟩
      · exact (List.sorted_mergeSort altLe_trans altLe_total _).imp
          (fun hab => by simpa [altLe, decide_eq_true_eq] using hab)
      · rw [List.length_mergeSort, hlen]
  · intro n hn hpos
    refine ⟨(altEntries (strField "city" e) (strField "date" e) (strField "type" e) fetch).mergeSort altLe, ?_, ?_⟩
    · rw [halt, if_neg ?_]
      intro hemp
      rw [List.isEmpty_iff_length_eq_zero, hlen, hn] at hemp
      omega
    · rw [List.length_mergeSort, hlen, hn]

/-- A provider behaviour under which exactly three of the six offset dates
around `demoEvt`'s date (2024-06-01) fetch successfully. -/
def demoFetch3 : String → String → Option Raw := fun _ d =>
  if d = "2024-05-29" ∨ d = "2024-05-31" ∨ d = "2024-06-02" then some demoRaw else none

theorem claim_C3_witness :
    alternatives demoDb 1 (fun _ _ => none) = .noAlternatives
    ∧ ∃ l, alternatives demoDb 1 demoFetch3 = .ok l ∧ l.length = 3 :=
  ⟨(claim_C3_alternatives_six_offsets demoDb 1 demoEvt (fun _ _ => none)
      (by rfl)).2.2.1.mpr (fun o _ => rfl),
   (claim_C3_alternatives_six_offsets demoDb 1 demoEvt demoFetch3
      (by rfl)).2.2.2.2 3 (by rfl) (by norm_num)⟩

end WeatherServer
